import Mathlib

/-!
Shallow embedding of the PiGardener hardware control loop
(`src/my_gardener_project/main_controller.py`, function `run_hardware_loop`)
and proofs about its per-tick behavior.

Modelling conventions:
* Python floats (monotonic time, durations, temperatures, humidities) are
  modelled as rationals `ℚ`; all comparisons in the loop are order
  comparisons, which ℚ reflects exactly for the decimal literals involved.
* Wall-clock time of day (`datetime.datetime.now().time()`) is modelled as
  seconds since midnight (`ℕ`); `datetime.time` comparison is lexicographic
  on (hour, minute, second, microsecond), which is order-isomorphic to
  seconds since midnight.
* GPIO relays are modelled by their boolean on/off state; `toggle_relay`
  drives a relay to the desired state and returns that state (its
  non-exceptional behavior).
* The settings SQLite table is a list of (key, string-value) rows; the
  loop's per-tick load converts each value with Python `float`/`int`,
  falling back to the raw string (lines 209-220).
* A Python exception escaping to the per-tick `try` (line 413) is modelled
  by `Except.error ()`: the tick is aborted, the loop continues.
-/

unseal Rat.add Rat.sub Rat.mul Rat.inv Rat.ofScientific

namespace PiGardener

/-- A settings value after the per-tick load: numeric if Python
`float(value)`/`int(value)` succeeded, otherwise the raw string.
Python ints and floats are merged into one numeric constructor, since every
numeric read site in the loop goes through `float(...)` again. -/
inductive SettingVal where
  | num (q : ℚ)
  | str (s : String)
deriving DecidableEq

/-- Numeric value of a list of decimal digit characters. -/
def digitsVal (cs : List Char) : ℕ :=
  cs.foldl (fun acc c => 10 * acc + (c.toNat - 48)) 0

/-- Magnitude of a Python `int` literal: a nonempty run of digits. -/
def pyIntMag (cs : List Char) : Option ℚ :=
  if cs ≠ [] ∧ cs.all Char.isDigit then some (digitsVal cs) else none

/-- Magnitude of a Python `float` literal: digits with at most one dot and
at least one digit overall (models plain decimal literals such as `27.0`,
`1.`, `.5`; scientific notation and `inf`/`nan` are not needed by any
settings value this loop reads). -/
def pyFloatMag (cs : List Char) : Option ℚ :=
  let intPart := cs.takeWhile (fun c => c ≠ '.')
  match cs.dropWhile (fun c => c ≠ '.') with
  | [] =>
    if intPart ≠ [] ∧ intPart.all Char.isDigit then some (digitsVal intPart) else none
  | _ :: frac =>
    if (intPart ++ frac) ≠ [] ∧ intPart.all Char.isDigit ∧ frac.all Char.isDigit then
      some ((digitsVal intPart : ℚ) + (digitsVal frac : ℚ) / (10 : ℚ) ^ frac.length)
    else none

/-- Optional leading sign, then a magnitude parser. -/
def pySigned (f : List Char → Option ℚ) (s : String) : Option ℚ :=
  match s.toList with
  | '-' :: rest => (f rest).map (fun q => -q)
  | '+' :: rest => f rest
  | cs => f cs

/-- Python `int(s)` on a plain decimal literal (`none` = `ValueError`). -/
def pyInt (s : String) : Option ℚ := pySigned pyIntMag s

/-- Python `float(s)` on a plain decimal literal (`none` = `ValueError`). -/
def pyFloat (s : String) : Option ℚ := pySigned pyFloatMag s

/-- Per-row conversion of the settings load, lines 212-220: values
containing a dot go through `float`, others through `int`; on
`ValueError` the value is kept as a string. -/
def parseStoredValue (v : String) : SettingVal :=
  if v.toList.contains '.' then
    match pyFloat v with
    | some q => SettingVal.num q
    | none => SettingVal.str v
  else
    match pyInt v with
    | some q => SettingVal.num q
    | none => SettingVal.str v

/-- The typed settings snapshot built once per tick (`app_settings`). -/
def Settings := List (String × SettingVal)

/-- Build `app_settings` from the raw settings rows (lines 206-220).
The settings table's key is a primary key, so keys are distinct and
first-match lookup agrees with the Python dict. -/
def loadSettings (rows : List (String × String)) : Settings :=
  rows.map (fun kv => (kv.1, parseStoredValue kv.2))

/-- `app_settings.get(key, default)`. -/
def getSetting (s : Settings) (key : String) (dflt : SettingVal) : SettingVal :=
  match List.lookup key s with
  | some v => v
  | none => dflt

/-- Python `float(x)` applied to a loaded settings value. -/
def pyFloatOf : SettingVal → Option ℚ
  | SettingVal.num q => some q
  | SettingVal.str s => pyFloat s

/-- A numeric read site `float(app_settings.get(key, default))`:
an unconvertible string raises `ValueError`, aborting the tick. -/
def getFloat (s : Settings) (key : String) (d : ℚ) : Except Unit ℚ :=
  match pyFloatOf (getSetting s key (SettingVal.num d)) with
  | some q => Except.ok q
  | none => Except.error ()

/-- Split a character list at every occurrence of the separator `c`
(the single-character case of Python `str.split` with a separator). -/
def splitOnChar (c : Char) : List Char → List (List Char)
  | [] => [[]]
  | a :: rest =>
    let r := splitOnChar c rest
    if a = c then [] :: r
    else
      match r with
      | [] => [[a]]
      | h :: t => (a :: h) :: t

/-- Python `datetime.strptime(s, "%H:%M").time()` as seconds since
midnight: one or two digits for the hour (0-23), a colon, one or two
digits for the minute (0-59), nothing else. -/
def parseHM (s : String) : Option ℕ :=
  match splitOnChar ':' s.toList with
  | [h, m] =>
    if 1 ≤ h.length ∧ h.length ≤ 2 ∧ h.all Char.isDigit
        ∧ 1 ≤ m.length ∧ m.length ≤ 2 ∧ m.all Char.isDigit then
      let hv := digitsVal h
      let mv := digitsVal m
      if hv ≤ 23 ∧ mv ≤ 59 then some (hv * 3600 + mv * 60) else none
    else none
  | _ => none

/-- A schedule read site
`datetime.strptime(str(app_settings.get(key, default)), "%H:%M").time()`
(lines 228-229). `str` of a numeric value contains no colon, so `strptime`
raises on it; an unparsable string also raises. Either aborts the tick. -/
def getTimeHM (s : Settings) (key : String) (ds : String) : Except Unit ℕ :=
  match getSetting s key (SettingVal.str ds) with
  | SettingVal.str v =>
    match parseHM v with
    | some t => Except.ok t
    | none => Except.error ()
  | SettingVal.num _ => Except.error ()

/-- Python `mode == "..."` on a loaded settings value. -/
def modeEq (v : SettingVal) (m : String) : Bool :=
  match v with
  | SettingVal.str s => s = m
  | SettingVal.num _ => false

/-- Lights schedule decision, lines 231-234: same-day window `[on, off)`
when `on <= off`, else the window wraps midnight. Arguments are seconds
since midnight. -/
def schedule_on (nowT onT offT : ℕ) : Bool :=
  if onT ≤ offT then decide (onT ≤ nowT ∧ nowT < offT)
  else decide (nowT ≥ onT ∨ nowT < offT)

/-- Per-channel duty-cycle state: `pumps_on[i]`/`last_pumps_toggle[i]`
(and the circulation-fan counterparts) from `hardware_state`. -/
structure CycleState where
  is_on : Bool
  last_toggle : ℚ
deriving DecidableEq

/-- One cycle-mode step for one channel (pump lines 253-260, circulation
fan lines 273-280). `r` is the channel's relay state; when no flip is due,
`toggle_relay` is not called and the relay keeps its state. Returns the
new tracked state and the relay state after the tick. -/
def cycleTick (st : CycleState) (r : Bool) (od fd now : ℚ) : CycleState × Bool :=
  if st.is_on then
    if now - st.last_toggle ≥ od then (⟨false, now⟩, false) else (st, r)
  else
    if now - st.last_toggle ≥ fd then (⟨true, now⟩, true) else (st, r)

/-- One full step for one pump / circulation-fan channel including the
per-channel mode dispatch (lines 252-264 / 272-284): only `"cycle"` runs
the engine; `"on"` forces the relay on and any other mode forces it off,
neither touching the tracked cycle state. -/
def channelTick (m : SettingVal) (st : CycleState) (r : Bool) (od fd now : ℚ) :
    CycleState × Bool :=
  if modeEq m "cycle" then cycleTick st r od fd now
  else if modeEq m "on" then (st, true)
  else (st, false)

/-- Pair each list element with its index, starting at `i`
(Python `enumerate`). -/
def enumFrom (i : ℕ) : List α → List (ℕ × α)
  | [] => []
  | a :: as => (i, a) :: enumFrom (i + 1) as

/-- The `for i, pin in enumerate(...)` loop over one bank of cycling
channels; `pre` is the per-channel mode key prefix (`"pumpMode"` or
`"circulationFanMode"`), whose default mode is `"cycle"`. -/
def cycleChannels (s : Settings) (pre : String) (od fd now : ℚ) :
    List (ℕ × CycleState × Bool) → List CycleState × List Bool
  | [] => ([], [])
  | c :: rest =>
    let m := getSetting s (pre ++ toString (c.1 + 1)) (SettingVal.str "cycle")
    let res := channelTick m c.2.1 c.2.2 od fd now
    let tail := cycleChannels s pre od fd now rest
    (res.1 :: tail.1, res.2 :: tail.2)

/-- The lights loop, lines 236-244: per-channel mode `"schedule"` follows
the schedule decision, `"on"` forces on, anything else forces off. -/
def lightsChannels (s : Settings) (sched : Bool) (rels : List (ℕ × Bool)) : List Bool :=
  rels.map fun ir =>
    let m := getSetting s ("lightsMode" ++ toString (ir.1 + 1)) (SettingVal.str "schedule")
    if modeEq m "schedule" then sched
    else if modeEq m "on" then true
    else false

/-- The exhaust-fan drive loop, lines 320-327: mode `"auto"` drives the
shared auto decision, `"on"` forces on, anything else forces off. -/
def exhaustChannels (s : Settings) (should : Bool) (rels : List (ℕ × Bool)) : List Bool :=
  rels.map fun ir =>
    let m := getSetting s ("exhaustFanMode" ++ toString (ir.1 + 1)) (SettingVal.str "auto")
    if modeEq m "auto" then should
    else if modeEq m "on" then true
    else false

/-- The exhaust-fan auto decision, lines 314-318: default to
`any(hardware_state["exhaust_fans_on"])`, overridden to ON when either
metric is above its high threshold, to OFF when both are below their low
thresholds. -/
def should_auto_on (prev : Bool) (t h th tl hh hl : ℚ) : Bool :=
  if t > th ∨ h > hh then true
  else if t < tl ∧ h < hl then false
  else prev

/-- DHT aggregation, lines 287-306: each device yields `some (temp, hum)`
or nothing (failed read / exception); valid readings are averaged
per field, and zero valid readings yield no aggregated reading. -/
def aggregate (dht : List (Option (ℚ × ℚ))) : Option (ℚ × ℚ) :=
  let valid := dht.filterMap id
  if valid.isEmpty then none
  else
    some ((valid.map Prod.fst).sum / (valid.length : ℚ),
          (valid.map Prod.snd).sum / (valid.length : ℚ))

/-- Water-system fields of `hardware_state` (lines 167-169). -/
structure WaterState where
  solenoid_on : Bool
  solenoid_start_time : Option ℚ
  water_error : Option String
deriving DecidableEq

/-- The water-system fields at process start (lines 167-169). -/
def initWaterState : WaterState := ⟨false, none, none⟩

/-- The water decision phase, lines 342-376: returns the error field as
assigned by this phase and `should_solenoid_be_on`. Priority: overflow
interlock, then fill timeout / continue while the solenoid is on with a
recorded start time, then mode-driven start (auto blocks a restart while
the stored error is `"reservoir_empty"`) or manual fill. -/
def waterDecide (st : WaterState) (overflow water_level_ok : Bool)
    (water_mode : SettingVal) (max_fill_time now : ℚ) : Option String × Bool :=
  if overflow then (some "overflow", false)
  else
    match st.solenoid_on, st.solenoid_start_time with
    | true, some t0 =>
      if now - t0 > max_fill_time then
        if water_level_ok = false then (some "reservoir_empty", false)
        else (some "timeout", false)
      else (st.water_error, true)
    | _, _ =>
      if modeEq water_mode "auto" then
        if water_level_ok = false ∧ st.water_error ≠ some "reservoir_empty" then
          (st.water_error, true)
        else (st.water_error, false)
      else if modeEq water_mode "fill" then (st.water_error, true)
      else (st.water_error, false)

/-- One full water-system step, lines 342-385: the decision phase followed
by the solenoid state update — on an off→on edge record
`solenoid_start_time = now` and clear the error, on an on→off edge clear
`solenoid_start_time`, otherwise keep both fields. -/
def waterTick (st : WaterState) (overflow water_level_ok : Bool)
    (water_mode : SettingVal) (max_fill_time now : ℚ) : WaterState :=
  let d := waterDecide st overflow water_level_ok water_mode max_fill_time now
  if d.2 = true ∧ st.solenoid_on = false then ⟨d.2, some now, none⟩
  else if d.2 = false ∧ st.solenoid_on = true then ⟨d.2, none, d.1⟩
  else ⟨d.2, st.solenoid_start_time, d.1⟩

/-- A run of consecutive water ticks in `"auto"` mode with no overflow;
each list entry is `(water_level_ok, now)` for one tick. -/
def waterRun (st : WaterState) (ticks : List (Bool × ℚ)) (max_fill_time : ℚ) : WaterState :=
  ticks.foldl
    (fun s t => waterTick s false t.1 (SettingVal.str "auto") max_fill_time t.2) st

/-- The telemetry section, lines 388-408: if the 60 s throttle has elapsed
and the aggregated reading is valid, the DB write is attempted; on success
`last_sensor_log_time` advances to `now`, on failure it is left unchanged
(the exception is caught locally). Returns the new
`last_sensor_log_time` and whether a write was attempted. -/
def telemetrySection (last_log : ℚ) (agg : Option (ℚ × ℚ)) (persistOk : Bool)
    (now : ℚ) : ℚ × Bool :=
  if now - last_log ≥ 60 then
    match agg with
    | some _ => if persistOk then (now, true) else (last_log, true)
    | none => (last_log, false)
  else (last_log, false)

/-- The loop's tracked in-memory state (`hardware_state`, lines 158-171),
restricted to the fields the loop reads or writes. The `lights_on` /
`last_lights_toggle` entries are initialized but never used by the loop,
so they are omitted. Note that `exhaust_fans_on` is read at line 314 but
never assigned anywhere in the program. -/
structure HardwareState where
  pumps : List CycleState
  exhaust_fans_on : List Bool
  circulation_fans : List CycleState
  water : WaterState
  last_sensor_log_time : ℚ
deriving DecidableEq

/-- The boolean on/off state of every relay bank. -/
structure Relays where
  lights : List Bool
  pumps : List Bool
  exhaust : List Bool
  circulation : List Bool
  solenoid : Bool
deriving DecidableEq

/-- The per-tick inputs from the outside world: wall clock (seconds since
midnight), monotonic clock, per-DHT-device readings, per-float-sensor
water-present booleans (`GPIO LOW`), the overflow boolean (`GPIO LOW`),
and whether the telemetry DB write would succeed this tick. -/
structure TickInputs where
  time_of_day : ℕ
  now : ℚ
  dht : List (Option (ℚ × ℚ))
  floats : List Bool
  overflow : Bool
  persistOk : Bool
deriving DecidableEq

/-- One iteration of the `while` body of `run_hardware_loop`
(lines 200-411): settings load, lights, pumps, circulation fans, sensor
aggregation and exhaust fans, water system, telemetry. `Except.error ()`
models an exception reaching the per-tick handler at line 413 (the tick is
aborted; relay writes made before the exception are not modelled, as no
theorem examines an aborted tick's partial effects). The returned `Bool`
is whether a telemetry write was attempted. -/
def runTick (rows : List (String × String)) (hs : HardwareState) (rel : Relays)
    (inp : TickInputs) : Except Unit (HardwareState × Relays × Bool) := do
  let s := loadSettings rows
  let onT ← getTimeHM s "lightsOnTime" "06:00"
  let offT ← getTimeHM s "lightsOffTime" "22:00"
  let sched := schedule_on inp.time_of_day onT offT
  let lightsR := lightsChannels s sched (enumFrom 0 rel.lights)
  let pod ← getFloat s "pumpOnDuration" 900
  let pfd ← getFloat s "pumpOffDuration" 2700
  let pres := cycleChannels s "pumpMode" pod pfd inp.now (enumFrom 0 (hs.pumps.zip rel.pumps))
  let cod ← getFloat s "circulationFanOnDuration" 1800
  let cfd ← getFloat s "circulationFanOffDuration" 1800
  let cres := cycleChannels s "circulationFanMode" cod cfd inp.now
    (enumFrom 0 (hs.circulation_fans.zip rel.circulation))
  let agg := aggregate inp.dht
  let exhaustR ←
    match agg with
    | some tp => do
      let th ← getFloat s "exhaustFanTempHigh" 27
      let tl ← getFloat s "exhaustFanTempLow" 23
      let hh ← getFloat s "exhaustFanHumidHigh" 65
      let hl ← getFloat s "exhaustFanHumidLow" 55
      let should := should_auto_on (hs.exhaust_fans_on.any id) tp.1 tp.2 th tl hh hl
      pure (exhaustChannels s should (enumFrom 0 rel.exhaust))
    | none => pure rel.exhaust
  let water_level_ok := inp.floats.all id
  let wm := getSetting s "waterSystemMode" (SettingVal.str "auto")
  let mft ← getFloat s "maxFillTime" 600
  let w2 := waterTick hs.water inp.overflow water_level_ok wm mft inp.now
  let tres := telemetrySection hs.last_sensor_log_time agg inp.persistOk inp.now
  pure (⟨pres.1, hs.exhaust_fans_on, cres.1, w2, tres.1⟩,
        ⟨lightsR, pres.2, exhaustR, cres.2, w2.solenoid_on⟩,
        tres.2)

/-- Whether a tick ran to completion (no exception reached line 413). -/
def tickOk (x : Except Unit (HardwareState × Relays × Bool)) : Bool :=
  match x with
  | Except.ok _ => true
  | Except.error _ => false

/-- The exhaust-fan relay states after a completed tick. -/
def tickExhaustRelays (x : Except Unit (HardwareState × Relays × Bool)) :
    Option (List Bool) :=
  match x with
  | Except.ok r => some r.2.1.exhaust
  | Except.error _ => none

/-- The tracked `exhaust_fans_on` flags after a completed tick. -/
def tickExhaustFlags (x : Except Unit (HardwareState × Relays × Bool)) :
    Option (List Bool) :=
  match x with
  | Except.ok r => some r.1.exhaust_fans_on
  | Except.error _ => none

/-- The `last_sensor_log_time` after a completed tick. -/
def tickLastLog (x : Except Unit (HardwareState × Relays × Bool)) : Option ℚ :=
  match x with
  | Except.ok r => some r.1.last_sensor_log_time
  | Except.error _ => none

/-- Whether a completed tick attempted a telemetry write. -/
def tickAttempted (x : Except Unit (HardwareState × Relays × Bool)) : Option Bool :=
  match x with
  | Except.ok r => some r.2.2
  | Except.error _ => none

/-- `hardware_state` as at process start (lines 158-171), taking the
process-start monotonic instant as 0: all cycle channels off with
`last_toggle = 0`, water system idle, and `last_sensor_log_time`
back-dated by 301 s so the first tick logs. -/
def hs0 : HardwareState :=
  ⟨List.replicate 5 ⟨false, 0⟩, [false, false], List.replicate 2 ⟨false, 0⟩,
   initWaterState, -301⟩

/-- All relays off, as initialized at lines 146-149. -/
def rel0 : Relays :=
  ⟨List.replicate 6 false, List.replicate 5 false, [false, false], [false, false], false⟩

/-- A first concrete tick input: noon, monotonic time 1 s, one DHT device
reading 30 °C / 50 % and one failing, all float sensors wet, no overflow,
DB available. -/
def tin1 : TickInputs := ⟨43200, 1, [some (30, 50), none], [true, true, true], false, true⟩

/-- Like `tin1` two seconds later, but with the reading 25 °C / 50 % —
inside the default dead-band (23 < 25 < 27, 50 < 55). -/
def tin2 : TickInputs := ⟨43202, 3, [some (25, 50), none], [true, true, true], false, true⟩

/-- `tin1` with the telemetry DB write failing. -/
def tinPfail : TickInputs := ⟨43200, 1, [some (30, 50), none], [true, true, true], false, false⟩

/-- The hardware state and relays after running `tin1` from the initial
state with the default (empty) settings store, then the tick on `tin2`. -/
def step2 : Except Unit (HardwareState × Relays × Bool) :=
  match runTick [] hs0 rel0 tin1 with
  | Except.ok r => runTick [] r.1 r.2.1 tin2
  | Except.error e => Except.error e

/-! ## Theorems -/

/-- C8: for all times in the 24-hour range, the lights schedule decision is:
when on <= off, true iff on <= now < off (hence always false when
on == off); when on > off the window wraps midnight: true iff now >= on or
now < off. Examples: on=06:00, off=22:00 is true at 12:00 and false at
23:00; on=20:00, off=08:00 is true at 23:00 and at 05:00 and false at
12:00. -/
theorem C8_schedule_window (nowT onT offT : ℕ)
    (hn : nowT < 86400) (ho : onT < 86400) (hf : offT < 86400) :
    (onT ≤ offT → (schedule_on nowT onT offT = true ↔ (onT ≤ nowT ∧ nowT < offT)))
    ∧ (offT < onT → (schedule_on nowT onT offT = true ↔ (nowT ≥ onT ∨ nowT < offT)))
    ∧ (onT = offT → schedule_on nowT onT offT = false)
    ∧ schedule_on 43200 21600 79200 = true
    ∧ schedule_on 82800 21600 79200 = false
    ∧ schedule_on 82800 72000 28800 = true
    ∧ schedule_on 18000 72000 28800 = true
    ∧ schedule_on 43200 72000 28800 = false := by
  refine ⟨?_, ?_, ?_, by decide, by decide, by decide, by decide, by decide⟩
  · intro h
    simp [schedule_on, h]
  · intro h
    rw [schedule_on, if_neg (by omega)]
    simp
  · intro h
    subst h
    simp [schedule_on]

/-- C8 witness: the same-day branch instantiated at noon with the default
06:00-22:00 window. -/
theorem C8_schedule_window_witness :
    schedule_on 43200 21600 79200 = true ↔ (21600 ≤ 43200 ∧ 43200 < 79200) :=
  (C8_schedule_window 43200 21600 79200 (by decide) (by decide) (by decide)).1 (by decide)

/-- C7: in cycle mode, an ON channel whose on-duration has elapsed
(`now - last_toggle >= on_duration`) flips OFF with `last_toggle = now`,
an OFF channel whose off-duration has elapsed flips ON likewise, and
otherwise the tracked state is unchanged and the relay keeps its current
value. With on_duration=900, off_duration=2700 from
`is_on = false, last_toggle = 0`: at 2699 the state is unchanged and the
relay stays off; at 2700 it flips on with `last_toggle = 2700`. -/
theorem C7_cycle_duty_cycle (st : CycleState) (r : Bool) (od fd now : ℚ) :
    (st.is_on = true → now - st.last_toggle ≥ od →
      cycleTick st r od fd now = (⟨false, now⟩, false))
    ∧ (st.is_on = true → ¬ now - st.last_toggle ≥ od →
      cycleTick st r od fd now = (st, r))
    ∧ (st.is_on = false → now - st.last_toggle ≥ fd →
      cycleTick st r od fd now = (⟨true, now⟩, true))
    ∧ (st.is_on = false → ¬ now - st.last_toggle ≥ fd →
      cycleTick st r od fd now = (st, r))
    ∧ cycleTick ⟨false, 0⟩ false 900 2700 2699 = (⟨false, 0⟩, false)
    ∧ cycleTick ⟨false, 0⟩ false 900 2700 2700 = (⟨true, 2700⟩, true) := by
  refine ⟨?_, ?_, ?_, ?_, by decide, by decide⟩ <;>
    intro h1 h2 <;> simp [cycleTick, h1, h2]

/-- C7 witness: an ON pump channel at exactly its on-duration flips off. -/
theorem C7_cycle_duty_cycle_witness :
    cycleTick ⟨true, 0⟩ true 900 2700 900 = (⟨false, 900⟩, false) :=
  (C7_cycle_duty_cycle ⟨true, 0⟩ true 900 2700 900).1 rfl (by norm_num)

/-- C10: a pump / circulation-fan channel in mode "on" or "off" keeps its
tracked cycle state (both fields) completely unchanged while the relay is
forced to the override value; only mode "cycle" runs the cycle engine on
the untouched state. Concretely, under mode "on" a channel tracked as off
keeps `is_on = false` while its relay is driven on — the tracked flag
disagrees with the physical relay. -/
theorem C10_manual_override_frame (m : SettingVal) (st : CycleState) (r : Bool)
    (od fd now : ℚ) (h : m = SettingVal.str "on" ∨ m = SettingVal.str "off") :
    (channelTick m st r od fd now).1 = st
    ∧ ((channelTick m st r od fd now).2 = true ↔ m = SettingVal.str "on")
    ∧ channelTick (SettingVal.str "cycle") st r od fd now = cycleTick st r od fd now
    ∧ (channelTick (SettingVal.str "on") ⟨false, 0⟩ false 900 2700 5).1.is_on = false
    ∧ (channelTick (SettingVal.str "on") ⟨false, 0⟩ false 900 2700 5).2 = true := by
  rcases h with h | h <;> subst h <;>
    exact ⟨by simp [channelTick, modeEq], by simp [channelTick, modeEq],
      by simp [channelTick, modeEq], by decide, by decide⟩

/-- C10 witness: a channel tracked as off, under manual mode "on", keeps
its tracked state and its relay is driven on. -/
theorem C10_manual_override_frame_witness :
    (channelTick (SettingVal.str "on") ⟨false, 7⟩ false 900 2700 9000).1 =
      (⟨false, 7⟩ : CycleState) :=
  (C10_manual_override_frame (SettingVal.str "on") ⟨false, 7⟩ false 900 2700 9000
    (Or.inl rfl)).1

/-- C1: whenever the overflow sensor reads triggered, the water tick forces
the solenoid OFF and sets the water error to "overflow" on that same tick,
for every previous water state, water-system mode, max fill time and
current time. -/
theorem C1_overflow_interlock (st : WaterState) (ok : Bool) (wm : SettingVal)
    (mft now : ℚ) :
    (waterTick st true ok wm mft now).solenoid_on = false
    ∧ (waterTick st true ok wm mft now).water_error = some "overflow" := by
  have hd : waterDecide st true ok wm mft now = (some "overflow", false) := by
    simp [waterDecide]
  cases hon : st.solenoid_on <;> simp [waterTick, hd, hon]

/-- C4: while filling (solenoid on with a recorded start) and no overflow:
past the (strict) fill timeout the solenoid is forced off with error
"reservoir_empty" when the water level is not OK and "timeout" when it is
OK; within the timeout the whole water state is unchanged — the solenoid
stays on regardless of the current float readings. -/
theorem C4_fill_timeout (st : WaterState) (t0 : ℚ) (ok : Bool) (wm : SettingVal)
    (mft now : ℚ) (hon : st.solenoid_on = true)
    (hst : st.solenoid_start_time = some t0) :
    (now - t0 > mft →
      (waterTick st false ok wm mft now).solenoid_on = false
      ∧ (waterTick st false ok wm mft now).water_error =
        some (if ok = false then "reservoir_empty" else "timeout"))
    ∧ (now - t0 ≤ mft → waterTick st false ok wm mft now = st) := by
  constructor
  · intro hgt
    have hd : waterDecide st false ok wm mft now =
        (some (if ok = false then "reservoir_empty" else "timeout"), false) := by
      cases ok <;> simp [waterDecide, hon, hst, hgt]
    simp [waterTick, hd, hon]
  · intro hle
    have hd : waterDecide st false ok wm mft now = (st.water_error, true) := by
      simp [waterDecide, hon, hst, not_lt.mpr hle]
    rcases st with ⟨so, sst, we⟩
    simp_all [waterTick]

/-- C4 witness: a fill started at 0 with max_fill_time 600, checked at 601
with the water level still not OK, faults with "reservoir_empty". -/
theorem C4_fill_timeout_witness :
    (waterTick ⟨true, some 0, none⟩ false false (SettingVal.str "auto") 600 601).solenoid_on
      = false
    ∧ (waterTick ⟨true, some 0, none⟩ false false (SettingVal.str "auto") 600 601).water_error
      = some "reservoir_empty" := by
  have h := (C4_fill_timeout ⟨true, some 0, none⟩ 0 false (SettingVal.str "auto") 600 601
    rfl rfl).1 (by norm_num)
  exact ⟨h.1, by simpa using h.2⟩

/-- One auto-mode water tick without overflow, taken from an idle state
whose stored error is "reservoir_empty", leaves the solenoid off and the
state unchanged. -/
theorem waterTick_reservoir_empty_step (st : WaterState) (ok : Bool) (mft now : ℚ)
    (hoff : st.solenoid_on = false) (herr : st.water_error = some "reservoir_empty") :
    waterTick st false ok (SettingVal.str "auto") mft now = st := by
  have hd : waterDecide st false ok (SettingVal.str "auto") mft now =
      (st.water_error, false) := by
    rcases st with ⟨so, sst, we⟩
    simp_all [waterDecide, modeEq]
  rcases st with ⟨so, sst, we⟩
  simp_all [waterTick]

/-- Over any run of auto-mode ticks without overflow from an idle state
stored as "reservoir_empty", the water state never changes (in particular
the solenoid never turns on). -/
theorem waterRun_reservoir_empty (ticks : List (Bool × ℚ)) :
    ∀ st : WaterState, st.solenoid_on = false →
    st.water_error = some "reservoir_empty" → ∀ mft : ℚ,
    waterRun st ticks mft = st := by
  induction ticks with
  | nil => intro st hoff herr mft; simp [waterRun]
  | cons t rest ih =>
    intro st hoff herr mft
    have h1 := waterTick_reservoir_empty_step st t.1 mft t.2 hoff herr
    have h2 := ih st hoff herr mft
    calc waterRun st (t :: rest) mft
        = waterRun (waterTick st false t.1 (SettingVal.str "auto") mft t.2) rest mft := by
          simp [waterRun]
      _ = waterRun st rest mft := by rw [h1]
      _ = st := h2

/-- C5: with no overflow and the solenoid off, an auto-mode tick starts a
fill (solenoid on) iff the water level is not OK — all float sensors must
report water present for OK — and the stored error is not
"reservoir_empty"; on a start, fill_start is recorded as now.
Consequently, over every run of auto-mode ticks from a state whose error
is "reservoir_empty", the solenoid never turns on. -/
theorem C5_auto_fill_start (st : WaterState) (floats : List Bool) (mft now : ℚ)
    (hoff : st.solenoid_on = false) :
    ((waterTick st false (floats.all id) (SettingVal.str "auto") mft now).solenoid_on = true
      ↔ (floats.all id = false ∧ st.water_error ≠ some "reservoir_empty"))
    ∧ (floats.all id = false → st.water_error ≠ some "reservoir_empty" →
      (waterTick st false (floats.all id) (SettingVal.str "auto") mft now).solenoid_start_time
        = some now)
    ∧ (st.water_error = some "reservoir_empty" →
      ∀ ticks : List (Bool × ℚ), (waterRun st ticks mft).solenoid_on = false) := by
  refine ⟨?_, ?_, ?_⟩
  · rcases st with ⟨so, sst, we⟩
    by_cases hok : floats.all id = false <;>
      by_cases hre : we = some "reservoir_empty" <;>
        simp_all [waterTick, waterDecide, modeEq]
  · intro hok hre
    rcases st with ⟨so, sst, we⟩
    simp_all [waterTick, waterDecide, modeEq]
  · intro herr ticks
    rw [waterRun_reservoir_empty ticks st hoff herr mft]
    exact hoff

/-- C5 witness: from an idle, error-free state with one dry float sensor,
an auto tick turns the solenoid on. -/
theorem C5_auto_fill_start_witness :
    (waterTick ⟨false, none, none⟩ false ([false, true, true].all id)
      (SettingVal.str "auto") 600 5).solenoid_on = true :=
  (C5_auto_fill_start ⟨false, none, none⟩ [false, true, true] 600 5 rfl).1.mpr
    ⟨by decide, by decide⟩

/-- The water decision phase never assigns `None` to the error field: it
either writes a concrete fault string or keeps the stored error. -/
theorem waterDecide_fst_none (st : WaterState) (ov ok : Bool) (wm : SettingVal)
    (mft now : ℚ) :
    (waterDecide st ov ok wm mft now).1 = none → st.water_error = none := by
  rcases st with ⟨so, sst, we⟩
  cases ov <;> cases so <;> cases sst <;>
    simp_all [waterDecide] <;> split_ifs <;> simp_all

/-- C6: the water-state invariant. At process start fill_start is None and
the solenoid is off; every water tick preserves "fill_start is Some iff
the solenoid is on"; the error field is set to None on every off→on
solenoid transition and a non-None error becomes None only on such a
transition. -/
theorem C6_water_state_invariant (st : WaterState) (ov ok : Bool) (wm : SettingVal)
    (mft now : ℚ) :
    (initWaterState.solenoid_on = false ∧ initWaterState.solenoid_start_time = none
      ∧ initWaterState.water_error = none)
    ∧ (st.solenoid_start_time.isSome = st.solenoid_on →
      (waterTick st ov ok wm mft now).solenoid_start_time.isSome
        = (waterTick st ov ok wm mft now).solenoid_on)
    ∧ (st.solenoid_on = false → (waterTick st ov ok wm mft now).solenoid_on = true →
      (waterTick st ov ok wm mft now).water_error = none)
    ∧ (st.water_error ≠ none → (waterTick st ov ok wm mft now).water_error = none →
      st.solenoid_on = false ∧ (waterTick st ov ok wm mft now).solenoid_on = true) := by
  refine ⟨⟨rfl, rfl, rfl⟩, ?_, ?_, ?_⟩
  · intro hinv
    by_cases h2 : (waterDecide st ov ok wm mft now).2 = true <;>
      cases hso : st.solenoid_on <;>
        simp_all [waterTick]
  · intro hso
    by_cases h2 : (waterDecide st ov ok wm mft now).2 = true <;>
      simp_all [waterTick]
  · intro herr hres
    by_cases h2 : (waterDecide st ov ok wm mft now).2 = true <;>
      cases hso : st.solenoid_on <;>
        simp_all [waterTick] <;>
          exact absurd (waterDecide_fst_none st ov ok wm mft now hres) herr

/-- C6 witness: the preservation and clearing parts applied to a concrete
off→on tick (idle error-free state, water low, auto mode). -/
theorem C6_water_state_invariant_witness :
    (waterTick ⟨false, none, none⟩ false false (SettingVal.str "auto") 600 5).solenoid_start_time.isSome
      = (waterTick ⟨false, none, none⟩ false false (SettingVal.str "auto") 600 5).solenoid_on :=
  (C6_water_state_invariant ⟨false, none, none⟩ false false (SettingVal.str "auto") 600 5).2.1
    rfl

/-- C2 (code bug): the decision formula of lines 314-318 does hold the
previous flag in the dead-band (`should_auto_on true 25 50 ...` is true),
but the loop never assigns `hardware_state["exhaust_fans_on"]`, so the
flag it reads is permanently `[false, false]`. Concretely, from the
initial state with default settings: a tick reading 30 °C / 50 % drives
both exhaust-fan relays ON, yet leaves the tracked flags `[false, false]`;
the next tick reading 25 °C / 50 % — inside the dead-band
(23 < 25 < 27, 50 < 55) — drives both relays OFF instead of holding them
ON as the claim states. -/
theorem C2_exhaust_dead_band_not_held :
    should_auto_on true 25 50 27 23 65 55 = true
    ∧ tickExhaustRelays (runTick [] hs0 rel0 tin1) = some [true, true]
    ∧ tickExhaustFlags (runTick [] hs0 rel0 tin1) = some [false, false]
    ∧ tickExhaustRelays step2 = some [false, false] :=
  ⟨by decide, by decide, by decide, by decide⟩

/-- C3 counterexample: a stored value that is unparsable for its read site
aborts the tick. With `pumpOnDuration = "abc"` (or `lightsOnTime =
"banana"`) the tick raises `ValueError` at the typed read and the
exception reaches the per-tick handler: the tick does not complete. -/
theorem C3_unparsable_setting_aborts_tick :
    tickOk (runTick [("pumpOnDuration", "abc")] hs0 rel0 tin1) = false
    ∧ tickOk (runTick [("lightsOnTime", "banana")] hs0 rel0 tin1) = false :=
  ⟨by decide, by decide⟩

/-- C3 amended: a read of an absent key evaluates to the hard-coded
default (and a tick over an empty settings store completes normally), but
a stored value unparsable for a numeric or time-of-day read site raises,
aborting that tick; the loop's catch-all then continues with the next
tick. -/
theorem C3_settings_defaults (rows : List (String × String)) (key : String)
    (d : ℚ) (ds : String) (tv : ℕ) (v : SettingVal) (sv : String) :
    (List.lookup key (loadSettings rows) = none →
      getFloat (loadSettings rows) key d = Except.ok d)
    ∧ (List.lookup key (loadSettings rows) = none → parseHM ds = some tv →
      getTimeHM (loadSettings rows) key ds = Except.ok tv)
    ∧ (List.lookup key (loadSettings rows) = some v → pyFloatOf v = none →
      getFloat (loadSettings rows) key d = Except.error ())
    ∧ (List.lookup key (loadSettings rows) = some (SettingVal.str sv) → parseHM sv = none →
      getTimeHM (loadSettings rows) key ds = Except.error ())
    ∧ tickOk (runTick [] hs0 rel0 tin1) = true := by
  refine ⟨?_, ?_, ?_, ?_, by decide⟩
  · intro h
    simp [getFloat, getSetting, h, pyFloatOf]
  · intro h hp
    simp [getTimeHM, getSetting, h, hp]
  · intro h hv
    simp [getFloat, getSetting, h, hv]
  · intro h hp
    simp [getTimeHM, getSetting, h, hp]

/-- C3 witness: the absent-key branches at the default pump on-duration
and lights on-time over the empty store. -/
theorem C3_settings_defaults_witness :
    getFloat (loadSettings []) "pumpOnDuration" 900 = Except.ok 900
    ∧ getTimeHM (loadSettings []) "lightsOnTime" "06:00" = Except.ok 21600 :=
  ⟨(C3_settings_defaults [] "pumpOnDuration" 900 "06:00" 21600
      (SettingVal.num 0) "").1 rfl,
   (C3_settings_defaults [] "lightsOnTime" 900 "06:00" 21600
      (SettingVal.num 0) "").2.1 rfl (by decide)⟩

/-- C9: a telemetry write is attempted iff at least 60 s have elapsed
since the last log and the aggregated reading is non-None (a tick with
zero valid sensor readings is never logged); on success the log timestamp
advances to now; a persistence failure leaves it unchanged — and the tick
still completes: on the concrete failing-DB tick the tick is OK, the write
was attempted, and the timestamp keeps its old value, while the same tick
with a working DB advances it to now. -/
theorem C9_telemetry_throttle (last now : ℚ) (agg : Option (ℚ × ℚ)) (p : Bool) :
    ((telemetrySection last agg p now).2 = true ↔ (now - last ≥ 60 ∧ agg.isSome = true))
    ∧ (now - last ≥ 60 → agg.isSome = true → p = true →
      (telemetrySection last agg p now).1 = now)
    ∧ (p = false → (telemetrySection last agg p now).1 = last)
    ∧ (aggregate [none, none, none]).isSome = false
    ∧ tickOk (runTick [] hs0 rel0 tinPfail) = true
    ∧ tickAttempted (runTick [] hs0 rel0 tinPfail) = some true
    ∧ tickLastLog (runTick [] hs0 rel0 tinPfail) = some (-301)
    ∧ tickLastLog (runTick [] hs0 rel0 tin1) = some 1 := by
  refine ⟨?_, ?_, ?_, by decide, by decide, by decide, by decide, by decide⟩
  · by_cases h : 60 ≤ now - last <;> cases agg <;> cases p <;>
      simp [telemetrySection, h]
  · intro h ha hp
    cases agg <;> simp_all [telemetrySection]
  · intro hp
    by_cases h : 60 ≤ now - last <;> cases agg <;>
      simp [telemetrySection, h, hp]

/-- C9 witness: the throttle conjuncts at the initial log timestamp and a
valid reading one second in. -/
theorem C9_telemetry_throttle_witness :
    (telemetrySection (-301) (some (30, 50)) true 1).1 = 1 :=
  (C9_telemetry_throttle (-301) 1 (some (30, 50)) true).2.1 (by norm_num) rfl rfl

end PiGardener
